import Mathlib

/-!
Verification development for the movie-database backend.

The embedding models the `RetrieveService` (external-data synchronization:
fetch, validate, normalize, deduplicate, persist) and the `PersistenceService`
(CRUD over the stored movie collection).  JavaScript numbers are modelled as
`Rat`, dynamic field access (`movie[field]`) as a string-keyed lookup that
returns `none` for an undefined field, and promise rejection / thrown
exceptions as `Except JsError`.
-/

/-- A movie genre as exchanged with the external catalog: `{id, name}`. -/
structure Genre where
  id : Int
  name : String
deriving DecidableEq, Repr

/-- A movie object as received from the external TMDB-style API
(`TmdbMovieDto`).  Apart from `id`, every field may be absent (`none`
models a JavaScript `undefined` property). -/
structure TmdbMovie where
  id : Int
  original_title : Option String
  overview : Option String
  popularity : Option Rat
  vote_average : Option Rat
  vote_count : Option Rat
  release_date : Option String
  genres : Option (List Genre)
deriving DecidableEq, Repr

/-- A dynamically typed JavaScript field value. -/
inductive FieldVal where
  | num : Rat → FieldVal
  | str : String → FieldVal
  | genreList : List Genre → FieldVal
deriving DecidableEq, Repr

/-- Dynamic string-keyed field lookup `movie[field]`; `none` plays the role
of `undefined` (unknown key or absent field). -/
def TmdbMovie.getField (m : TmdbMovie) : String → Option FieldVal
  | "id" => some (.num m.id)
  | "original_title" => m.original_title.map .str
  | "overview" => m.overview.map .str
  | "popularity" => m.popularity.map .num
  | "vote_average" => m.vote_average.map .num
  | "vote_count" => m.vote_count.map .num
  | "release_date" => m.release_date.map .str
  | "genres" => m.genres.map .genreList
  | _ => none

/-- The error values thrown by the service layer: NestJS
`BadRequestException`, `InternalServerErrorException`, `NotFoundException`,
and a plain JavaScript `Error` (network or database failure). -/
inductive JsError where
  | badRequest : String → JsError
  | internalServerError : String → JsError
  | notFound : String → JsError
  | error : String → JsError
deriving DecidableEq, Repr

/-- The `message` property of a thrown error. -/
def JsError.message : JsError → String
  | badRequest m => m
  | internalServerError m => m
  | notFound m => m
  | error m => m

/-- The check `error instanceof BadRequestException`. -/
def JsError.isBadRequest : JsError → Bool
  | badRequest _ => true
  | _ => false

/-- A record of the local `Movies` collection (entity `Movies`):
a locally generated `id`, the external `tmdb_id`, and the normalized
movie fields. -/
structure StoredMovie where
  id : String
  tmdb_id : Int
  name : String
  overview : String
  popularity : Rat
  voteAverage : Rat
  voteCount : Rat
  releaseDate : String
  genres : List Genre
deriving DecidableEq, Repr

namespace RetrieveService

/-- Embedding of `RetrieveService.isValidMovie`: dynamic required-field check,
`requiredFields.every(field => movie[field] !== undefined)`. -/
def isValidMovie (requiredFields : List String) (movie : TmdbMovie) : Bool :=
  requiredFields.all (fun field => (movie.getField field).isSome)

/-- The six required fields checked on each element of the upstream list. -/
def requiredFields : List String :=
  ["original_title", "overview", "popularity", "vote_average", "vote_count",
   "release_date"]

/-- Outcome of the upstream `/discover/movie` HTTP call: the promise may
reject, or resolve with `null`/`undefined`, with a non-array value, or with
an array of movie objects. -/
inductive UpstreamList where
  | reject : JsError → UpstreamList
  | absent : UpstreamList
  | nonArray : UpstreamList
  | arr : List TmdbMovie → UpstreamList
deriving Repr

/-- Outcome of the upstream `/movie/:id` HTTP call: rejection, an absent
(`null`/`undefined`) body, or a movie-details object. -/
inductive UpstreamDetail where
  | reject : JsError → UpstreamDetail
  | absent : UpstreamDetail
  | found : TmdbMovie → UpstreamDetail
deriving Repr

/-- Embedding of `RetrieveService.getMovies`, as a function of the upstream response:
rejects non-array or absent payloads with the invalid-format
`BadRequestException`, then requires every element of the array to carry
the six required fields, and otherwise returns the array unchanged. -/
def getMovies : UpstreamList → Except JsError (List TmdbMovie)
  | .reject e => .error e
  | .absent => .error (.badRequest "Invalid response format from TMDB API")
  | .nonArray => .error (.badRequest "Invalid response format from TMDB API")
  | .arr response =>
    if response.all (fun movie => isValidMovie requiredFields movie) then
      .ok response
    else
      .error (.badRequest "Response contains movies with missing required fields")

/-- Embedding of `RetrieveService.getMovieDetails`, as a function of the upstream
response for the requested id: an absent body raises the details-not-found
`BadRequestException`, a body without a defined `genres` field raises the
missing-required-fields `BadRequestException`, otherwise the details are
returned.  The function never touches the movie model (read-only: its
embedding neither receives nor produces a store). -/
def getMovieDetails : UpstreamDetail → Except JsError TmdbMovie
  | .reject e => .error e
  | .absent => .error (.badRequest "Movie details not found")
  | .found details =>
    if isValidMovie ["genres"] details then .ok details
    else
      .error (.badRequest "Response contains movies with missing required fields")

/-- The model object pushed for one candidate in `updateDatabase`:
`{tmdb_id: movie.id, id: crypto.randomUUID(), name: movie.original_title, ...,
genres: details.genres}`.  On the success path the fields are defined, so the
`getD` defaults are never consulted there. -/
def normalize (uuid : String) (movie details : TmdbMovie) : StoredMovie :=
  { tmdb_id := movie.id
    id := uuid
    name := movie.original_title.getD ""
    overview := movie.overview.getD ""
    popularity := movie.popularity.getD 0
    voteAverage := movie.vote_average.getD 0
    voteCount := movie.vote_count.getD 0
    releaseDate := movie.release_date.getD ""
    genres := details.genres.getD [] }

/-- The parallel gather of `updateDatabase`:
`Promise.all(filteredMovies.map(async movie => { const details = await
getMovieDetails(movie.id); models.push({...}) }))`.  Fail-fast: if any
detail fetch fails the whole gather fails with that error and no models
survive.  `d` gives the upstream detail response per external id and `f`
supplies the generated UUIDs. -/
def fetchAndNormalize (d : Int → UpstreamDetail) (f : Nat → String) :
    List TmdbMovie → Nat → Except JsError (List StoredMovie)
  | [], _ => .ok []
  | movie :: rest, i =>
    match getMovieDetails (d movie.id) with
    | .error e => .error e
    | .ok details =>
      match fetchAndNormalize d f rest (i + 1) with
      | .error e => .error e
      | .ok models => .ok (normalize (f i) movie details :: models)

end RetrieveService

namespace RetrieveService

/-- One run's environment for `updateDatabase`: the upstream list response,
the upstream detail response per external id, the current contents of the
`Movies` collection, whether `movieModel.find` / `movieModel.insertMany`
reject (and with which error), and the supply of generated UUIDs. -/
structure World where
  listResp : UpstreamList
  detailResp : Int → UpstreamDetail
  store : List StoredMovie
  findFails : Option JsError
  insertFails : Option JsError
  freshId : Nat → String

/-- The value returned by `updateDatabase` on success. -/
structure SyncResult where
  message : String
  updatedCount : Nat
deriving DecidableEq, Repr

/-- Observable outcome of one `updateDatabase` run: the returned (or
thrown) value, the final contents of the store, and the argument of each
`insertMany` call that was made (in order). -/
structure RunOutcome where
  result : Except JsError SyncResult
  store : List StoredMovie
  inserts : List (List StoredMovie)

/-- The body of the `try` block of `RetrieveService.updateDatabase`:
fetch the candidate list, gather details and build models, query the store
for existing records whose `tmdb_id` is among the candidates, filter the
models down to the genuinely new ones, and bulk-insert them only when that
set is non-empty. -/
def updateDatabaseTry (w : World) : RunOutcome :=
  match getMovies w.listResp with
  | .error e => ⟨.error e, w.store, []⟩
  | .ok filteredMovies =>
    match fetchAndNormalize w.detailResp w.freshId filteredMovies 0 with
    | .error e => ⟨.error e, w.store, []⟩
    | .ok models =>
      match w.findFails with
      | some e => ⟨.error e, w.store, []⟩
      | none =>
        let existingMovies := w.store.filter
          (fun s => (models.map (fun m => m.tmdb_id)).contains s.tmdb_id)
        let existingTmdbIds := existingMovies.map (fun m => m.tmdb_id)
        let newMovies := models.filter
          (fun m => !(existingTmdbIds.contains m.tmdb_id))
        if 0 < newMovies.length then
          match w.insertFails with
          | some e => ⟨.error e, w.store, []⟩
          | none =>
            ⟨.ok ⟨"Database updated successfully", newMovies.length⟩,
              w.store ++ newMovies, [newMovies]⟩
        else
          ⟨.ok ⟨"Database updated successfully", newMovies.length⟩,
            w.store, []⟩

/-- Embedding of `RetrieveService.updateDatabase`, with the surrounding `catch`: a
`BadRequestException` is re-thrown unchanged, any other error is wrapped
into `InternalServerErrorException` carrying the original message. -/
def updateDatabase (w : World) : RunOutcome :=
  let r := updateDatabaseTry w
  match r.result with
  | .ok v => ⟨.ok v, r.store, r.inserts⟩
  | .error e =>
    if e.isBadRequest then ⟨.error e, r.store, r.inserts⟩
    else
      ⟨.error (.internalServerError ("Failed to update database: " ++ e.message)),
        r.store, r.inserts⟩

end RetrieveService

/-- The body of a create request (`CreatePersistenceDto`): every stored
field except the locally generated `id`. -/
structure CreatePersistenceDto where
  tmdb_id : Int
  name : String
  overview : String
  popularity : Rat
  voteAverage : Rat
  voteCount : Rat
  releaseDate : String
  genres : List Genre
deriving DecidableEq, Repr

/-- The body of an update request (`UpdatePersistenceDto`), a partial
version of `CreatePersistenceDto`: every field optional, and no `id`
field at all. -/
structure UpdatePersistenceDto where
  tmdb_id : Option Int := none
  name : Option String := none
  overview : Option String := none
  popularity : Option Rat := none
  voteAverage : Option Rat := none
  voteCount : Option Rat := none
  releaseDate : Option String := none
  genres : Option (List Genre) := none
deriving DecidableEq, Repr

namespace PersistenceService

/-- Embedding of `PersistenceService.save`: `movieModel.create({...dto, id:
crypto.randomUUID()})` — build the document from the client-supplied
fields plus a freshly generated `id` and append it to the collection,
returning the created document. -/
def save (uuid : String) (dto : CreatePersistenceDto)
    (store : List StoredMovie) : StoredMovie × List StoredMovie :=
  let doc : StoredMovie :=
    { id := uuid
      tmdb_id := dto.tmdb_id
      name := dto.name
      overview := dto.overview
      popularity := dto.popularity
      voteAverage := dto.voteAverage
      voteCount := dto.voteCount
      releaseDate := dto.releaseDate
      genres := dto.genres }
  (doc, store ++ [doc])

/-- Embedding of `PersistenceService.findById`: `movieModel.findOne({id})`, throwing
`NotFoundException` when no document matches. -/
def findById (id : String) (store : List StoredMovie) :
    Except JsError StoredMovie :=
  match store.find? (fun m => m.id == id) with
  | some movie => .ok movie
  | none => .error (.notFound ("Movie with id " ++ id ++ " not found"))

/-- The update step `findOneAndUpdate({id}, dto, {new: true})` applies the fields present
in the update body to the matched document; absent fields are untouched,
and the document's `id` is untouched because the update DTO has no `id`
field. -/
def applyUpdate (dto : UpdatePersistenceDto) (m : StoredMovie) : StoredMovie :=
  { id := m.id
    tmdb_id := dto.tmdb_id.getD m.tmdb_id
    name := dto.name.getD m.name
    overview := dto.overview.getD m.overview
    popularity := dto.popularity.getD m.popularity
    voteAverage := dto.voteAverage.getD m.voteAverage
    voteCount := dto.voteCount.getD m.voteCount
    releaseDate := dto.releaseDate.getD m.releaseDate
    genres := dto.genres.getD m.genres }

/-- Replace the first document satisfying `p` by `m2` (the mutation done
by `findOneAndUpdate`). -/
def replaceFirst (p : StoredMovie → Bool) (m2 : StoredMovie) :
    List StoredMovie → List StoredMovie
  | [] => []
  | x :: xs => if p x then m2 :: xs else x :: replaceFirst p m2 xs

/-- Embedding of `PersistenceService.updateById`: `findOne({id})`, throwing
`NotFoundException` when absent; then `findOneAndUpdate({id}, dto,
{new: true})`, returning the updated document (or `null` if the second
lookup no longer matches — impossible in this sequential model but kept
for shape). -/
def updateById (id : String) (dto : UpdatePersistenceDto)
    (store : List StoredMovie) :
    Except JsError (Option StoredMovie) × List StoredMovie :=
  match store.find? (fun m => m.id == id) with
  | none => (.error (.notFound ("Movie with id " ++ id ++ " not found")), store)
  | some _ =>
    match store.find? (fun m => m.id == id) with
    | some movie =>
      (.ok (some (applyUpdate dto movie)),
        replaceFirst (fun m => m.id == id) (applyUpdate dto movie) store)
    | none => (.ok none, store)

/-- Embedding of `PersistenceService.removeById`: `findOne({id})`, throwing
`NotFoundException` when absent; then `findOneAndDelete({id})`, removing
the first matching document and returning it (or `null` when the second
lookup no longer matches). -/
def removeById (id : String) (store : List StoredMovie) :
    Except JsError (Option StoredMovie) × List StoredMovie :=
  match store.find? (fun m => m.id == id) with
  | none => (.error (.notFound ("Movie with id " ++ id ++ " not found")), store)
  | some _ =>
    match store.find? (fun m => m.id == id) with
    | some movie => (.ok (some movie), store.eraseP (fun m => m.id == id))
    | none => (.ok none, store)

end PersistenceService

section ScratchTests

open RetrieveService

example : getMovies (.arr []) = .ok [] := rfl

example :
    getMovies .absent =
      .error (.badRequest "Invalid response format from TMDB API") := rfl

example :
    getMovieDetails .absent = .error (.badRequest "Movie details not found") := rfl

example (l : List Int) (a : Int) : l.contains a ↔ a ∈ l := List.elem_iff

example (l : List Int) (p : Int → Bool) (h : ∀ a ∈ l, ¬ p a) :
    l.filter p = [] := by
  rw [List.filter_eq_nil_iff]
  intro a ha
  simpa using h a ha

example (l : List Int) (p q : Int → Bool) (h : ∀ a ∈ l, p a = q a) :
    l.filter p = l.filter q := List.filter_congr h

end ScratchTests

namespace RetrieveService

/-- The candidate of the spec's worked example: `{id: 1, original_title:
"X", overview: "Y", popularity: 10, vote_average: 9, vote_count: 2000,
release_date: "2020-01-01"}`. -/
def exampleCandidate : TmdbMovie :=
  { id := 1
    original_title := some "X"
    overview := some "Y"
    popularity := some 10
    vote_average := some 9
    vote_count := some 2000
    release_date := some "2020-01-01"
    genres := none }

/-- The detail response of the spec's worked example:
`{genres: [{id: 1, name: "Drama"}]}`. -/
def exampleDetails : TmdbMovie :=
  { id := 1
    original_title := none
    overview := none
    popularity := none
    vote_average := none
    vote_count := none
    release_date := none
    genres := some [⟨1, "Drama"⟩] }

/-- Worked-example world: one candidate, working store, empty collection. -/
def exampleWorld : World :=
  { listResp := .arr [exampleCandidate]
    detailResp := fun _ => .found exampleDetails
    store := []
    findFails := none
    insertFails := none
    freshId := fun n => "uuid-" ++ toString n }

example :
    (updateDatabase exampleWorld).result =
      .ok ⟨"Database updated successfully", 1⟩ := rfl

example :
    (updateDatabase exampleWorld).store =
      [{ id := "uuid-0", tmdb_id := 1, name := "X", overview := "Y",
         popularity := 10, voteAverage := 9, voteCount := 2000,
         releaseDate := "2020-01-01", genres := [⟨1, "Drama"⟩] }] := rfl

example :
    (updateDatabase
      { exampleWorld with
          store := [{ id := "old", tmdb_id := 1, name := "X", overview := "Y",
                      popularity := 10, voteAverage := 9, voteCount := 2000,
                      releaseDate := "2020-01-01", genres := [] }] }).result =
      .ok ⟨"Database updated successfully", 0⟩ := rfl

example :
    (updateDatabase { exampleWorld with listResp := .arr [] }).result =
      .ok ⟨"Database updated successfully", 0⟩ := rfl

example :
    (updateDatabase
      { exampleWorld with detailResp := fun _ => .reject (.error "boom") }).result
      = .error (.internalServerError "Failed to update database: boom") := rfl

example :
    (updateDatabase
      { exampleWorld with detailResp := fun _ => .absent }).result
      = .error (.badRequest "Movie details not found") := rfl

/-- When the gather succeeds, the models carry exactly the candidates'
external ids, in order; the generated UUIDs play no role in this. -/
theorem fetchAndNormalize_ok_map_tmdbId (d : Int → UpstreamDetail)
    (f : Nat → String) :
    ∀ (ms : List TmdbMovie) (i : Nat) (l : List StoredMovie),
      fetchAndNormalize d f ms i = .ok l →
      l.map (fun m => m.tmdb_id) = ms.map (fun m => m.id) := by
  intro ms
  induction ms with
  | nil =>
    intro i l h
    simp only [fetchAndNormalize] at h
    cases h
    rfl
  | cons movie rest ih =>
    intro i l h
    simp only [fetchAndNormalize] at h
    cases hd : getMovieDetails (d movie.id) with
    | error e => rw [hd] at h; cases h
    | ok det =>
      rw [hd] at h
      cases hr : fetchAndNormalize d f rest (i + 1) with
      | error e => rw [hr] at h; cases h
      | ok models =>
        rw [hr] at h
        cases h
        simp [normalize, ih (i + 1) models hr]

/-- Whether the gather succeeds does not depend on the UUID supply or the
starting index. -/
theorem fetchAndNormalize_ok_of_ok (d : Int → UpstreamDetail)
    (f1 f2 : Nat → String) :
    ∀ (ms : List TmdbMovie) (i j : Nat) (l : List StoredMovie),
      fetchAndNormalize d f1 ms i = .ok l →
      ∃ l2, fetchAndNormalize d f2 ms j = .ok l2 := by
  intro ms
  induction ms with
  | nil =>
    intro i j l _
    exact ⟨[], rfl⟩
  | cons movie rest ih =>
    intro i j l h
    simp only [fetchAndNormalize] at h ⊢
    cases hd : getMovieDetails (d movie.id) with
    | error e => rw [hd] at h; cases h
    | ok det =>
      rw [hd] at h
      cases hr : fetchAndNormalize d f1 rest (i + 1) with
      | error e => rw [hr] at h; cases h
      | ok models =>
        obtain ⟨l2, hl2⟩ := ih (i + 1) (j + 1) models hr
        exact ⟨normalize (f2 j) movie det :: l2, by rw [hl2]⟩

/-- The dedupe step of `updateDatabase` first narrows the store query to
the candidate ids (`$in`), but for the candidates themselves membership in
that narrowed id set coincides with membership in the full set of stored
external ids. -/
theorem dedupe_filter_eq (store models : List StoredMovie) :
    models.filter
      (fun m => !(((store.filter
          (fun s => (models.map (fun x => x.tmdb_id)).contains s.tmdb_id)).map
        (fun s => s.tmdb_id)).contains m.tmdb_id))
    = models.filter
        (fun m => !((store.map (fun s => s.tmdb_id)).contains m.tmdb_id)) := by
  apply List.filter_congr
  intro m hm
  congr 1
  rw [Bool.eq_iff_iff]
  simp only [List.elem_iff, List.mem_map, List.mem_filter]
  constructor
  · rintro ⟨s, ⟨hs, _⟩, he⟩
    exact ⟨s, hs, he⟩
  · rintro ⟨s, hs, he⟩
    exact ⟨s, ⟨hs, ⟨m, hm, he.symm⟩⟩, he⟩

/-- The models whose external catalog id is not among the external ids
already present in `store`: the set `updateDatabase` actually inserts. -/
def newAgainst (store models : List StoredMovie) : List StoredMovie :=
  models.filter
    (fun m => !((store.map (fun s => s.tmdb_id)).contains m.tmdb_id))

/-- Characterization of a fully successful `updateDatabase` run: the
records inserted are exactly the models whose external id is not already
present in the store, appended by a single bulk insert (made only when
that set is non-empty), and the reported count is their number. -/
theorem updateDatabase_ok_run (w : World) (ms : List TmdbMovie)
    (models : List StoredMovie)
    (hlist : getMovies w.listResp = .ok ms)
    (hdet : fetchAndNormalize w.detailResp w.freshId ms 0 = .ok models)
    (hfind : w.findFails = none) (hins : w.insertFails = none) :
    updateDatabase w =
      ⟨.ok ⟨"Database updated successfully", (newAgainst w.store models).length⟩,
        w.store ++ newAgainst w.store models,
        if (newAgainst w.store models).isEmpty then []
        else [newAgainst w.store models]⟩ := by
  have htry : updateDatabaseTry w =
      ⟨.ok ⟨"Database updated successfully", (newAgainst w.store models).length⟩,
        w.store ++ newAgainst w.store models,
        if (newAgainst w.store models).isEmpty then []
        else [newAgainst w.store models]⟩ := by
    rw [updateDatabaseTry]
    simp only [hlist, hdet, hfind]
    rw [dedupe_filter_eq w.store models, ← newAgainst]
    cases hcase : newAgainst w.store models with
    | nil => simp [hcase]
    | cons a l => simp [hcase, hins]
  simp only [updateDatabase, htry]

theorem getField_original_title (m : TmdbMovie) :
    m.getField "original_title" = m.original_title.map .str := rfl

theorem getField_overview (m : TmdbMovie) :
    m.getField "overview" = m.overview.map .str := rfl

theorem getField_popularity (m : TmdbMovie) :
    m.getField "popularity" = m.popularity.map .num := rfl

theorem getField_vote_average (m : TmdbMovie) :
    m.getField "vote_average" = m.vote_average.map .num := rfl

theorem getField_vote_count (m : TmdbMovie) :
    m.getField "vote_count" = m.vote_count.map .num := rfl

theorem getField_release_date (m : TmdbMovie) :
    m.getField "release_date" = m.release_date.map .str := rfl

theorem getField_genres (m : TmdbMovie) :
    m.getField "genres" = m.genres.map .genreList := rfl

/-- Claim C4 (corrected form).  An absent or non-array upstream payload
fails with the invalid-format error; every array payload all of whose
elements carry the six required fields — the empty array included — is
returned unchanged, in order.  (The original claim also made the empty
array fail with `InvalidUpstreamFormat`; `claim_C4_counterexample` shows
the code accepts it, because an empty JavaScript array is truthy and
passes `Array.isArray`.) -/
theorem claim_C4 (ms : List TmdbMovie) :
    getMovies .absent =
      .error (.badRequest "Invalid response format from TMDB API")
  ∧ getMovies .nonArray =
      .error (.badRequest "Invalid response format from TMDB API")
  ∧ (ms.all (fun m => isValidMovie requiredFields m) = true →
      getMovies (.arr ms) = .ok ms) := by
  refine ⟨rfl, rfl, fun h => ?_⟩
  simp [getMovies, h]

/-- Claim C4, counterexample to the original statement: the upstream
payload that is an empty array does not fail with `InvalidUpstreamFormat`;
`getMovies` succeeds and returns the empty list. -/
theorem claim_C4_counterexample :
    getMovies (UpstreamList.arr []) = Except.ok [] := rfl

/-- Claim C4, witness: a singleton array whose element carries the six
required fields is returned unchanged. -/
theorem claim_C4_witness :
    [exampleCandidate].all (fun m => isValidMovie requiredFields m) = true
  ∧ getMovies (.arr [exampleCandidate]) = .ok [exampleCandidate] :=
  ⟨rfl, (claim_C4 [exampleCandidate]).2.2 rfl⟩

/-- Claim C5: on an array-shaped upstream payload, `getMovies` fails with
the missing-required-fields error exactly when some element leaves one of
the six required fields undefined; the check is definedness (a field
present with value `0` or `""` is `some _`, hence passes), and one bad
element rejects the whole batch. -/
theorem claim_C5 (ms : List TmdbMovie) :
    getMovies (.arr ms) =
      .error (.badRequest "Response contains movies with missing required fields")
  ↔ ∃ m ∈ ms, ∃ f ∈ requiredFields, m.getField f = none := by
  by_cases hall : ms.all (fun m => isValidMovie requiredFields m) = true
  · rw [getMovies, if_pos hall]
    constructor
    · intro h
      exact Except.noConfusion h
    · rintro ⟨m, hm, f, hf, hnone⟩
      have hv := List.all_eq_true.mp hall m hm
      have hfv := List.all_eq_true.mp hv f hf
      rw [hnone] at hfv
      exact Bool.noConfusion hfv
  · rw [getMovies, if_neg hall]
    constructor
    · intro _
      have hfal : ms.all (fun m => isValidMovie requiredFields m) = false :=
        Bool.eq_false_iff.mpr hall
      obtain ⟨m, hm, hnv⟩ := List.all_eq_false.mp hfal
      have hex : ¬ ∀ f ∈ requiredFields, ((m.getField f).isSome = true) := by
        intro hc
        exact hnv (List.all_eq_true.mpr hc)
      push_neg at hex
      obtain ⟨f, hf, hfv⟩ := hex
      refine ⟨m, hm, f, hf, ?_⟩
      cases hval : m.getField f with
      | none => rfl
      | some v => rw [hval] at hfv; exact absurd rfl hfv
    · intro _
      rfl

/-- Claim C6: `getMovieDetails` fails with the details-not-found error on
an absent response, fails with the missing-required-fields error when the
response lacks a defined genre list, and otherwise returns the detail
record unchanged.  The embedding neither receives nor returns a store,
matching the source function, which never touches the movie model. -/
theorem claim_C6 :
    getMovieDetails .absent = .error (.badRequest "Movie details not found")
  ∧ (∀ m : TmdbMovie, m.genres = none →
      getMovieDetails (.found m) =
        .error (.badRequest "Response contains movies with missing required fields"))
  ∧ (∀ (m : TmdbMovie) (gl : List Genre), m.genres = some gl →
      getMovieDetails (.found m) = .ok m) := by
  refine ⟨rfl, fun m h => ?_, fun m gl h => ?_⟩
  · simp [getMovieDetails, isValidMovie, getField_genres, h]
  · simp [getMovieDetails, isValidMovie, getField_genres, h]

/-- Claim C6, witness: a details object with a defined genre list is
returned unchanged, and one without a defined genre list is rejected. -/
theorem claim_C6_witness :
    getMovieDetails (.found exampleDetails) = .ok exampleDetails
  ∧ getMovieDetails (.found exampleCandidate) =
      .error (.badRequest "Response contains movies with missing required fields") :=
  ⟨claim_C6.2.2 exampleDetails [⟨1, "Drama"⟩] rfl,
   claim_C6.2.1 exampleCandidate rfl⟩

/-- Claim C5, witness: a batch whose single element lacks `overview` is
rejected with the missing-required-fields error. -/
theorem claim_C5_witness :
    getMovies (.arr [{ exampleCandidate with overview := none }]) =
      .error (.badRequest "Response contains movies with missing required fields") :=
  (claim_C5 [{ exampleCandidate with overview := none }]).mpr
    ⟨{ exampleCandidate with overview := none }, List.mem_singleton.mpr rfl,
      "overview", by decide, rfl⟩

/-- The normalized record of the spec's worked example. -/
def exampleStored : StoredMovie :=
  { id := "uuid-0", tmdb_id := 1, name := "X", overview := "Y",
    popularity := 10, voteAverage := 9, voteCount := 2000,
    releaseDate := "2020-01-01", genres := [⟨1, "Drama"⟩] }

/-- Claim C1: in every run whose list fetch, detail fetches and store
operations succeed, `updateDatabase` inserts exactly the normalized
candidates whose `tmdb_id` is not already present in the store, with one
bulk `insertMany` call made only when that set is non-empty (an empty set
makes no insert call and is not an error), and returns the success message
together with the number actually inserted (0 included). -/
theorem claim_C1 (w : World) (ms : List TmdbMovie) (models : List StoredMovie)
    (hlist : getMovies w.listResp = .ok ms)
    (hdet : fetchAndNormalize w.detailResp w.freshId ms 0 = .ok models)
    (hfind : w.findFails = none) (hins : w.insertFails = none) :
    updateDatabase w =
      ⟨.ok ⟨"Database updated successfully", (newAgainst w.store models).length⟩,
        w.store ++ newAgainst w.store models,
        if (newAgainst w.store models).isEmpty then []
        else [newAgainst w.store models]⟩ :=
  updateDatabase_ok_run w ms models hlist hdet hfind hins

/-- Claim C1, witness: the spec's worked example — one candidate, empty
store — inserts the one normalized record and reports a count of 1. -/
theorem claim_C1_witness :
    updateDatabase exampleWorld =
      ⟨.ok ⟨"Database updated successfully", 1⟩,
        [exampleStored], [[exampleStored]]⟩ :=
  claim_C1 exampleWorld [exampleCandidate] [exampleStored] rfl rfl rfl rfl

/-- Claim C2: if the list fetch succeeds but any of the detail fetches
fails, the whole run fails — carrying that error unchanged when it is a
`BadRequestException` (the errors `getMovieDetails` itself raises), and
wrapped with the original message otherwise — the store is left exactly as
it was, and no `insertMany` call is made (no partial commit). -/
theorem claim_C2 (w : World) (ms : List TmdbMovie) (e : JsError)
    (hlist : getMovies w.listResp = .ok ms)
    (hdet : fetchAndNormalize w.detailResp w.freshId ms 0 = .error e) :
    (updateDatabase w).store = w.store
  ∧ (updateDatabase w).inserts = []
  ∧ (updateDatabase w).result =
      .error (if e.isBadRequest then e
        else .internalServerError ("Failed to update database: " ++ e.message)) := by
  have htry : updateDatabaseTry w = ⟨.error e, w.store, []⟩ := by
    rw [updateDatabaseTry]
    simp only [hlist, hdet]
  rw [updateDatabase]
  simp only [htry]
  cases hb : e.isBadRequest <;> simp [hb]

/-- Claim C2, witness: with two candidates whose second detail fetch
rejects, the run fails, the store is untouched and no insert is made. -/
theorem claim_C2_witness :
    (updateDatabase
      { exampleWorld with
          listResp := .arr [exampleCandidate, { exampleCandidate with id := 2 }]
          detailResp := fun i =>
            if i == 2 then .reject (.error "Failed to fetch details")
            else .found exampleDetails }).store = []
  ∧ (updateDatabase
      { exampleWorld with
          listResp := .arr [exampleCandidate, { exampleCandidate with id := 2 }]
          detailResp := fun i =>
            if i == 2 then .reject (.error "Failed to fetch details")
            else .found exampleDetails }).inserts = []
  ∧ (updateDatabase
      { exampleWorld with
          listResp := .arr [exampleCandidate, { exampleCandidate with id := 2 }]
          detailResp := fun i =>
            if i == 2 then .reject (.error "Failed to fetch details")
            else .found exampleDetails }).result =
      .error (.internalServerError
        "Failed to update database: Failed to fetch details") :=
  claim_C2
    { exampleWorld with
        listResp := .arr [exampleCandidate, { exampleCandidate with id := 2 }]
        detailResp := fun i =>
          if i == 2 then .reject (.error "Failed to fetch details")
          else .found exampleDetails }
    [exampleCandidate, { exampleCandidate with id := 2 }]
    (.error "Failed to fetch details") rfl rfl

/-- Claim C3: errors thrown inside `updateDatabase` follow the catch
policy — a `BadRequestException` (the validation-class errors of the fetch
and validate steps) is re-thrown unchanged, while any other error,
in particular a store failure during dedupe or persist, is wrapped into an
`InternalServerErrorException` carrying the original error's message. -/
theorem claim_C3 (w : World) :
    (∀ e, (updateDatabaseTry w).result = .error e →
      (updateDatabase w).result =
        .error (if e.isBadRequest then e
          else .internalServerError ("Failed to update database: " ++ e.message)))
  ∧ (∀ e, getMovies w.listResp = .error e → e.isBadRequest = true →
      (updateDatabase w).result = .error e)
  ∧ (∀ (ms : List TmdbMovie) (models : List StoredMovie) (msg : String),
      getMovies w.listResp = .ok ms →
      fetchAndNormalize w.detailResp w.freshId ms 0 = .ok models →
      w.findFails = some (JsError.error msg) →
      (updateDatabase w).result =
        .error (.internalServerError ("Failed to update database: " ++ msg))) := by
  refine ⟨fun e he => ?_, fun e he hb => ?_, fun ms models msg hlist hdet hf => ?_⟩
  · rw [updateDatabase]
    simp only [he]
    cases hb : e.isBadRequest <;> simp [hb]
  · have htry : (updateDatabaseTry w).result = .error e := by
      rw [updateDatabaseTry]
      simp only [he]
    rw [updateDatabase]
    simp only [htry, hb]
    simp
  · have htry : (updateDatabaseTry w).result = .error (.error msg) := by
      rw [updateDatabaseTry]
      simp only [hlist, hdet, hf]
    rw [updateDatabase]
    simp only [htry]
    simp [JsError.isBadRequest, JsError.message]

/-- Claim C3, witness: a store failure during the dedupe query is wrapped
into the internal-server error carrying the original message, while a
validation error from the list fetch passes through unchanged. -/
theorem claim_C3_witness :
    (updateDatabase
      { exampleWorld with
          findFails := some (.error "Database connection failed") }).result =
      .error (.internalServerError
        "Failed to update database: Database connection failed")
  ∧ (updateDatabase { exampleWorld with listResp := .absent }).result =
      .error (.badRequest "Invalid response format from TMDB API") :=
  ⟨(claim_C3 { exampleWorld with
      findFails := some (.error "Database connection failed") }).2.2
      [exampleCandidate] [exampleStored] "Database connection failed" rfl rfl rfl,
   (claim_C3 { exampleWorld with listResp := .absent }).2.1
      (.badRequest "Invalid response format from TMDB API") rfl rfl⟩

/-- After a successful run, every model built from the same candidate list
carries an external id that is already present in the resulting store, so
a second dedupe filters everything out. -/
theorem newAgainst_after_run (store models models2 : List StoredMovie)
    (hmap : models2.map (fun m => m.tmdb_id) = models.map (fun m => m.tmdb_id)) :
    newAgainst (store ++ newAgainst store models) models2 = [] := by
  rw [newAgainst, List.filter_eq_nil_iff]
  intro m2 hm2
  have hmem : m2.tmdb_id ∈ models.map (fun m => m.tmdb_id) := by
    rw [← hmap]
    exact List.mem_map.mpr ⟨m2, hm2, rfl⟩
  obtain ⟨m, hm, he⟩ := List.mem_map.mp hmem
  have hin : m2.tmdb_id ∈
      ((store ++ newAgainst store models).map (fun s => s.tmdb_id)) := by
    rw [List.map_append, List.mem_append]
    by_cases hs : m2.tmdb_id ∈ store.map (fun s => s.tmdb_id)
    · exact Or.inl hs
    · refine Or.inr (List.mem_map.mpr ⟨m, ?_, he⟩)
      rw [newAgainst, List.mem_filter]
      refine ⟨hm, ?_⟩
      rw [Bool.not_eq_true']
      rw [← Bool.not_eq_true, List.elem_iff]
      rw [he]
      exact hs
  have hc : (((store ++ newAgainst store models).map
      (fun s => s.tmdb_id)).contains m2.tmdb_id) = true :=
    List.elem_iff.mpr hin
  simp only [hc, Bool.not_true]
  exact fun h => Bool.noConfusion h

/-- Claim C7: running `updateDatabase` twice in a row against unchanged
upstream responses and a working store (the second run seeded with the
store the first run produced, and with a possibly different UUID supply)
returns `updatedCount = 0` on the second run and leaves the store exactly
as the first run left it. -/
theorem claim_C7 (w : World) (f2 : Nat → String) (ms : List TmdbMovie)
    (models : List StoredMovie)
    (hlist : getMovies w.listResp = .ok ms)
    (hdet : fetchAndNormalize w.detailResp w.freshId ms 0 = .ok models)
    (hfind : w.findFails = none) (hins : w.insertFails = none) :
    (updateDatabase
        { w with store := (updateDatabase w).store, freshId := f2 }).result =
      .ok ⟨"Database updated successfully", 0⟩
  ∧ (updateDatabase
        { w with store := (updateDatabase w).store, freshId := f2 }).store =
      (updateDatabase w).store := by
  obtain ⟨models2, hdet2⟩ :=
    fetchAndNormalize_ok_of_ok w.detailResp w.freshId f2 ms 0 0 models hdet
  have hmap : models2.map (fun m => m.tmdb_id) = models.map (fun m => m.tmdb_id) := by
    rw [fetchAndNormalize_ok_map_tmdbId w.detailResp f2 ms 0 models2 hdet2,
        fetchAndNormalize_ok_map_tmdbId w.detailResp w.freshId ms 0 models hdet]
  have h1 := updateDatabase_ok_run w ms models hlist hdet hfind hins
  have hstore1 : (updateDatabase w).store = w.store ++ newAgainst w.store models := by
    rw [h1]
  have h2 := updateDatabase_ok_run
    { w with store := (updateDatabase w).store, freshId := f2 }
    ms models2 hlist hdet2 hfind hins
  have hnil : newAgainst (updateDatabase w).store models2 = [] := by
    rw [hstore1]
    exact newAgainst_after_run w.store models models2 hmap
  rw [h2]
  simp [hnil]

/-- Claim C7, witness: a second run of the worked example, seeded with the
store the first run produced, reports `updatedCount = 0` and leaves the
store unchanged. -/
theorem claim_C7_witness :
    (updateDatabase
        { exampleWorld with
            store := (updateDatabase exampleWorld).store
            freshId := fun n => "second-" ++ toString n }).result =
      .ok ⟨"Database updated successfully", 0⟩
  ∧ (updateDatabase
        { exampleWorld with
            store := (updateDatabase exampleWorld).store
            freshId := fun n => "second-" ++ toString n }).store =
      (updateDatabase exampleWorld).store :=
  claim_C7 exampleWorld (fun n => "second-" ++ toString n)
    [exampleCandidate] [exampleStored] rfl rfl rfl rfl

/-- Claim C8 (corrected form).  When the upstream list call succeeds with
zero candidates and the store's dedupe query behaves normally,
`updateDatabase` returns success with `updatedCount = 0`, touches nothing
and makes no insert call; the generic wrapping path triggers only when a
store operation itself fails during the run, as in the repository's unit
test, whose mocked `find` yields no array and so makes the dedupe step
throw.  (The original claim said the empty candidate list itself routes
into the wrapping failure path; `claim_C8_counterexample` refutes that.) -/
theorem claim_C8 (w : World) :
    (w.listResp = .arr [] → w.findFails = none →
      updateDatabase w =
        ⟨.ok ⟨"Database updated successfully", 0⟩, w.store, []⟩)
  ∧ (∀ msg, w.listResp = .arr [] → w.findFails = some (JsError.error msg) →
      (updateDatabase w).result =
        .error (.internalServerError ("Failed to update database: " ++ msg))) := by
  constructor
  · intro hl hf
    have hlist : getMovies w.listResp = .ok [] := by rw [hl]; rfl
    have htry : updateDatabaseTry w =
        ⟨.ok ⟨"Database updated successfully", 0⟩, w.store, []⟩ := by
      rw [updateDatabaseTry]
      simp only [hlist, fetchAndNormalize, hf]
      rfl
    rw [updateDatabase]
    simp only [htry]
  · intro msg hl hf
    have hlist : getMovies w.listResp = .ok [] := by rw [hl]; rfl
    have htry : (updateDatabaseTry w).result = .error (.error msg) := by
      rw [updateDatabaseTry]
      simp only [hlist, fetchAndNormalize, hf]
    rw [updateDatabase]
    simp only [htry]
    simp [JsError.isBadRequest, JsError.message]

/-- Claim C8, counterexample to the original statement: with an empty
upstream candidate list and a working store, `updateDatabase` returns the
success result with `updatedCount = 0` instead of failing through the
generic wrapping path. -/
theorem claim_C8_counterexample :
    (updateDatabase { exampleWorld with listResp := .arr [] }).result =
      .ok ⟨"Database updated successfully", 0⟩ := rfl

/-- Claim C8, witness: the success half applied to a concrete world with
an empty candidate list and a working store, and the wrapping half applied
to the same world with a failing dedupe query (the unit test's shape). -/
theorem claim_C8_witness :
    updateDatabase { exampleWorld with listResp := .arr [] } =
      ⟨.ok ⟨"Database updated successfully", 0⟩, [], []⟩
  ∧ (updateDatabase
      { exampleWorld with
          listResp := .arr []
          findFails := some (.error "undefined has no map") }).result =
      .error (.internalServerError
        "Failed to update database: undefined has no map") :=
  ⟨(claim_C8 { exampleWorld with listResp := .arr [] }).1 rfl rfl,
   (claim_C8 { exampleWorld with
      listResp := .arr []
      findFails := some (.error "undefined has no map") }).2
      "undefined has no map" rfl rfl⟩

end RetrieveService

theorem find?_append_of_none {α} (p : α → Bool) (l1 l2 : List α)
    (h : l1.find? p = none) : (l1 ++ l2).find? p = l2.find? p := by
  induction l1 with
  | nil => rfl
  | cons x xs ih =>
    cases hp : p x with
    | true =>
      rw [List.find?_cons_of_pos _ hp] at h
      cases h
    | false =>
      have hp' : ¬ p x = true := by simp [hp]
      rw [List.find?_cons_of_neg _ hp'] at h
      rw [List.cons_append, List.find?_cons_of_neg _ hp']
      exact ih h

theorem eraseP_append_of_none {α} (p : α → Bool) (l1 l2 : List α)
    (h : ∀ x ∈ l1, p x = false) : (l1 ++ l2).eraseP p = l1 ++ l2.eraseP p := by
  induction l1 with
  | nil => rfl
  | cons x xs ih =>
    rw [List.cons_append, List.eraseP_cons_of_neg, List.cons_append, ih]
    · intro y hy
      exact h y (List.mem_cons.mpr (Or.inr hy))
    · simp [h x (List.mem_cons_self x xs)]

namespace PersistenceService

/-- Claim C9: CRUD round-trip.  Creating a record via `save` (with a
generated local id not already present in the store) and then fetching it
by that id returns a record whose client-supplied fields match the create
body exactly; deleting it by the same id returns it and restores the prior
store, after which a fetch by that id fails with `NotFoundException`. -/
theorem claim_C9 (dto : CreatePersistenceDto) (uuid : String)
    (store : List StoredMovie) (hfresh : ∀ m ∈ store, m.id ≠ uuid) :
    findById uuid (save uuid dto store).2 = .ok (save uuid dto store).1
  ∧ (save uuid dto store).1.id = uuid
  ∧ (save uuid dto store).1.tmdb_id = dto.tmdb_id
  ∧ (save uuid dto store).1.name = dto.name
  ∧ (save uuid dto store).1.overview = dto.overview
  ∧ (save uuid dto store).1.popularity = dto.popularity
  ∧ (save uuid dto store).1.voteAverage = dto.voteAverage
  ∧ (save uuid dto store).1.voteCount = dto.voteCount
  ∧ (save uuid dto store).1.releaseDate = dto.releaseDate
  ∧ (save uuid dto store).1.genres = dto.genres
  ∧ removeById uuid (save uuid dto store).2 =
      (.ok (some (save uuid dto store).1), store)
  ∧ findById uuid (removeById uuid (save uuid dto store).2).2 =
      .error (.notFound ("Movie with id " ++ uuid ++ " not found")) := by
  have hfalse : ∀ x ∈ store, (fun m => m.id == uuid) x = false := by
    intro x hx
    simp [hfresh x hx]
  have hnone : store.find? (fun m => m.id == uuid) = none :=
    List.find?_eq_none.mpr (by intro x hx; simp [hfresh x hx])
  have hfind1 :
      ((save uuid dto store).2).find? (fun m => m.id == uuid) =
        some (save uuid dto store).1 := by
    show (store ++ [(save uuid dto store).1]).find? (fun m => m.id == uuid) = _
    rw [find?_append_of_none _ _ _ hnone]
    exact List.find?_cons_of_pos _ (by simp [save])
  have herase :
      ((save uuid dto store).2).eraseP (fun m => m.id == uuid) = store := by
    show (store ++ [(save uuid dto store).1]).eraseP (fun m => m.id == uuid) = _
    rw [eraseP_append_of_none _ _ _ hfalse, List.eraseP_cons_of_pos]
    · simp
    · simp [save]
  have hremove : removeById uuid (save uuid dto store).2 =
      (.ok (some (save uuid dto store).1), store) := by
    rw [removeById, hfind1, herase]
  refine ⟨?_, rfl, rfl, rfl, rfl, rfl, rfl, rfl, rfl, rfl, hremove, ?_⟩
  · rw [findById, hfind1]
  · rw [hremove]
    rw [findById, hnone]

/-- The create body used to instantiate the CRUD claims. -/
def exampleDto : CreatePersistenceDto :=
  { tmdb_id := 1, name := "Test Movie", overview := "Test Overview",
    popularity := 1, voteAverage := 1, voteCount := 1,
    releaseDate := "2021-01-01", genres := [⟨1, "Action"⟩] }

/-- Claim C9, witness: round-trip on an empty store with a concrete body
and generated id. -/
theorem claim_C9_witness :
    findById "u1" (save "u1" exampleDto []).2 = .ok (save "u1" exampleDto []).1
  ∧ (save "u1" exampleDto []).1.name = exampleDto.name
  ∧ removeById "u1" (save "u1" exampleDto []).2 =
      (.ok (some (save "u1" exampleDto []).1), [])
  ∧ findById "u1" (removeById "u1" (save "u1" exampleDto []).2).2 =
      .error (.notFound "Movie with id u1 not found") :=
  have h := claim_C9 exampleDto "u1" [] (fun m hm => absurd hm (List.not_mem_nil m))
  ⟨h.1, h.2.2.2.1, h.2.2.2.2.2.2.2.2.2.2.1, h.2.2.2.2.2.2.2.2.2.2.2⟩

/-- Claim C10: `updateById` never changes the stored record's locally
generated `id` — the update DTO shape carries no `id` field — and the
fields present in the update body are exactly the ones modified: an absent
field keeps its stored value, a present field takes the body's value. -/
theorem claim_C10 (id : String) (dto : UpdatePersistenceDto)
    (store : List StoredMovie) (m : StoredMovie)
    (h : store.find? (fun x => x.id == id) = some m) :
    (updateById id dto store).1 = .ok (some (applyUpdate dto m))
  ∧ (applyUpdate dto m).id = m.id
  ∧ (dto.tmdb_id = none → (applyUpdate dto m).tmdb_id = m.tmdb_id)
  ∧ (∀ v, dto.tmdb_id = some v → (applyUpdate dto m).tmdb_id = v)
  ∧ (dto.name = none → (applyUpdate dto m).name = m.name)
  ∧ (∀ v, dto.name = some v → (applyUpdate dto m).name = v)
  ∧ (dto.overview = none → (applyUpdate dto m).overview = m.overview)
  ∧ (∀ v, dto.overview = some v → (applyUpdate dto m).overview = v)
  ∧ (dto.popularity = none → (applyUpdate dto m).popularity = m.popularity)
  ∧ (∀ v, dto.popularity = some v → (applyUpdate dto m).popularity = v)
  ∧ (dto.voteAverage = none → (applyUpdate dto m).voteAverage = m.voteAverage)
  ∧ (∀ v, dto.voteAverage = some v → (applyUpdate dto m).voteAverage = v)
  ∧ (dto.voteCount = none → (applyUpdate dto m).voteCount = m.voteCount)
  ∧ (∀ v, dto.voteCount = some v → (applyUpdate dto m).voteCount = v)
  ∧ (dto.releaseDate = none → (applyUpdate dto m).releaseDate = m.releaseDate)
  ∧ (∀ v, dto.releaseDate = some v → (applyUpdate dto m).releaseDate = v)
  ∧ (dto.genres = none → (applyUpdate dto m).genres = m.genres)
  ∧ (∀ v, dto.genres = some v → (applyUpdate dto m).genres = v) := by
  refine ⟨?_, rfl, ?_, ?_, ?_, ?_, ?_, ?_, ?_, ?_, ?_, ?_, ?_, ?_, ?_, ?_, ?_, ?_⟩
  · rw [updateById, h]
  all_goals
    first
    | (intro hv; simp [applyUpdate, hv])
    | (intro v hv; simp [applyUpdate, hv])

/-- Claim C10, witness: updating only `name` on a store holding one
record leaves its id and every other field unchanged and sets the name. -/
theorem claim_C10_witness :
    (updateById "u1" { name := some "Updated Name" }
        [(save "u1" exampleDto []).1]).1 =
      .ok (some (applyUpdate { name := some "Updated Name" }
        (save "u1" exampleDto []).1))
  ∧ (applyUpdate { name := some "Updated Name" }
      (save "u1" exampleDto []).1).id = "u1"
  ∧ (applyUpdate { name := some "Updated Name" }
      (save "u1" exampleDto []).1).name = "Updated Name"
  ∧ (applyUpdate { name := some "Updated Name" }
      (save "u1" exampleDto []).1).overview = "Test Overview" :=
  have h := claim_C10 "u1" { name := some "Updated Name" }
    [(save "u1" exampleDto []).1] (save "u1" exampleDto []).1
    (List.find?_cons_of_pos _ (by simp [save]))
  ⟨h.1, h.2.1, h.2.2.2.2.2.1 "Updated Name" rfl, h.2.2.2.2.2.2.1 rfl⟩

end PersistenceService
